import Mathlib

/-!
Shallow embedding of the ardour-mcp control-plane core, translated from
src/ardour_mcp/ardour_state.py and the tool classes in
src/ardour_mcp/tools/{mixer,navigation,metering}.py.

Modelling conventions:
* Python floats become rationals (ℚ); integers become Int; strings String.
* The session-state cache (class ArdourState) becomes a record holding a
  lock identifier (a Nat standing for the identity of the threading.RLock
  object allocated in __init__) and a SessionState value.  Every cache
  accessor in the source wraps its whole body in `with self._lock`, so in
  the embedding each accessor is a single atomic state transformer.
* The keyword-argument dictionary `**kwargs` of update_track becomes a
  list of TrackKwarg values: one typed constructor per attribute of the
  TrackState dataclass, plus `unknown key` for any keyword whose name is
  not an attribute of TrackState (for those, `hasattr(track, key)` is
  false and the source skips the setattr).
* Tool methods (MixerTools, NavigationTools, MeteringTools) are functions
  of an environment holding the bridge connection flag, the boolean that
  ArdourOSCBridge.send_command would return, and the cache; they return
  the result dictionary, the list of OSC datagrams handed to
  send_command, and the cache state they leave behind.
-/

namespace ArdourMcp

/-- TrackState dataclass of ardour_state.py: per-strip mixer state with the
defaults declared in the source (empty name, audio type, all booleans
false, gain 0.0, pan 0.0). -/
@[ext]
structure TrackState where
  strip_id : Int
  name : String := ""
  track_type : String := "audio"
  muted : Bool := false
  soloed : Bool := false
  rec_enabled : Bool := false
  gain_db : ℚ := 0
  pan : ℚ := 0
  hidden : Bool := false
deriving DecidableEq, Repr

/-- TransportState dataclass of ardour_state.py with its source defaults. -/
@[ext]
structure TransportState where
  playing : Bool := false
  recording : Bool := false
  frame : Int := 0
  tempo : ℚ := 120
  time_signature : Int × Int := (4, 4)
  loop_enabled : Bool := false
deriving DecidableEq, Repr

/-- SessionState dataclass of ardour_state.py.  The tracks dict is modelled
as a partial map from strip id to track record. -/
@[ext]
structure SessionState where
  name : String := ""
  path : String := ""
  sample_rate : Int := 48000
  tracks : Int → Option TrackState := fun _ => none
  markers : List (String × Int) := []
  transport : TransportState := {}
  dirty : Bool := false

/-- The ArdourState cache object: the RLock allocated in __init__ (modelled
by its identity, a Nat) together with the SessionState it protects. -/
@[ext]
structure ArdourState where
  lock : Nat
  state : SessionState

/-- One keyword argument of ArdourState.update_track.  Each constructor but
the last names an attribute of the TrackState dataclass and carries the
value assigned; `unknown key` stands for a keyword argument whose name is
not an attribute of TrackState, which the source skips because
`hasattr(track, key)` is false. -/
inductive TrackKwarg where
  | strip_id (v : Int)
  | name (v : String)
  | track_type (v : String)
  | muted (v : Bool)
  | soloed (v : Bool)
  | rec_enabled (v : Bool)
  | gain_db (v : ℚ)
  | pan (v : ℚ)
  | hidden (v : Bool)
  | unknown (key : String)
deriving DecidableEq, Repr

/-- Names of the TrackState attributes, used to phrase frame conditions. -/
inductive TrackFieldName where
  | strip_id | name | track_type | muted | soloed | rec_enabled
  | gain_db | pan | hidden
deriving DecidableEq, Repr

/-- The attribute a keyword argument targets, none for an unknown key. -/
def TrackKwarg.target : TrackKwarg → Option TrackFieldName
  | .strip_id _ => some .strip_id
  | .name _ => some .name
  | .track_type _ => some .track_type
  | .muted _ => some .muted
  | .soloed _ => some .soloed
  | .rec_enabled _ => some .rec_enabled
  | .gain_db _ => some .gain_db
  | .pan _ => some .pan
  | .hidden _ => some .hidden
  | .unknown _ => none

/-- Two track records agree on the given attribute. -/
def TrackState.fieldEq : TrackFieldName → TrackState → TrackState → Prop
  | .strip_id, t₁, t₂ => t₁.strip_id = t₂.strip_id
  | .name, t₁, t₂ => t₁.name = t₂.name
  | .track_type, t₁, t₂ => t₁.track_type = t₂.track_type
  | .muted, t₁, t₂ => t₁.muted = t₂.muted
  | .soloed, t₁, t₂ => t₁.soloed = t₂.soloed
  | .rec_enabled, t₁, t₂ => t₁.rec_enabled = t₂.rec_enabled
  | .gain_db, t₁, t₂ => t₁.gain_db = t₂.gain_db
  | .pan, t₁, t₂ => t₁.pan = t₂.pan
  | .hidden, t₁, t₂ => t₁.hidden = t₂.hidden

/-- One iteration of the update loop in ArdourState.update_track: for a
known attribute, `setattr(track, key, value)`; for an unknown key the
`hasattr` guard fails and the record is left alone. -/
def TrackState.setattr (t : TrackState) : TrackKwarg → TrackState
  | .strip_id v => { t with strip_id := v }
  | .name v => { t with name := v }
  | .track_type v => { t with track_type := v }
  | .muted v => { t with muted := v }
  | .soloed v => { t with soloed := v }
  | .rec_enabled v => { t with rec_enabled := v }
  | .gain_db v => { t with gain_db := v }
  | .pan v => { t with pan := v }
  | .hidden v => { t with hidden := v }
  | .unknown _ => t

/-- ArdourState.update_track: under the lock, insert a default TrackState
for strip_id when absent, then apply each keyword argument in order. -/
def ArdourState.update_track (a : ArdourState) (strip_id : Int)
    (kwargs : List TrackKwarg) : ArdourState :=
  let base := (a.state.tracks strip_id).getD { strip_id := strip_id }
  let track := kwargs.foldl TrackState.setattr base
  { a with
    state := { a.state with
      tracks := fun i => if i = strip_id then some track else a.state.tracks i } }

/-- ArdourState.update_transport: under the lock, overwrite exactly the
transport fields whose argument is not None. -/
def ArdourState.update_transport (a : ArdourState)
    (playing recording : Option Bool) (frame : Option Int) (tempo : Option ℚ) :
    ArdourState :=
  let t₀ := a.state.transport
  let t₁ := match playing with | some v => { t₀ with playing := v } | none => t₀
  let t₂ := match recording with | some v => { t₁ with recording := v } | none => t₁
  let t₃ := match frame with | some v => { t₂ with frame := v } | none => t₂
  let t₄ := match tempo with | some v => { t₃ with tempo := v } | none => t₃
  { a with state := { a.state with transport := t₄ } }

/-- ArdourState.get_track: read the tracks dict under the lock. -/
def ArdourState.get_track (a : ArdourState) (strip_id : Int) : Option TrackState :=
  a.state.tracks strip_id

/-- ArdourState.get_transport: read the transport record under the lock. -/
def ArdourState.get_transport (a : ArdourState) : TransportState :=
  a.state.transport

/-- ArdourState.get_session_info: return the whole session state. -/
def ArdourState.get_session_info (a : ArdourState) : SessionState :=
  a.state

/-- ArdourState.clear: replace the protected state with a freshly
constructed SessionState; the lock field is untouched. -/
def ArdourState.clear (a : ArdourState) : ArdourState :=
  { a with state := {} }

/-- One argument of an OSC message handed to ArdourOSCBridge.send_command. -/
inductive OscArg where
  | int (n : Int)
  | float (q : ℚ)
  | str (s : String)
deriving DecidableEq, Repr

/-- One OSC command handed to ArdourOSCBridge.send_command: the address
pattern together with its argument list. -/
structure OscCmd where
  address : String
  args : List OscArg
deriving DecidableEq, Repr

/-- Observable side of ArdourOSCBridge as the mixer tools use it:
is_connected() and the boolean that send_command returns for a datagram. -/
structure Bridge where
  connected : Bool
  sendOk : Bool
deriving DecidableEq, Repr

/-- Environment of a tool method call: the bridge and the state cache, the
two objects handed to the tool class constructor. -/
structure ToolEnv where
  bridge : Bridge
  cache : ArdourState

/-- Result dictionary returned by a tool method.  Python returns a dict
with a varying key set; each optional field here models the presence or
absence of the corresponding key. -/
@[ext]
structure ToolResult where
  success : Bool
  error : Option String := none
  message : Option String := none
  track_id : Option Int := none
  track_name : Option String := none
  volume_db : Option ℚ := none
  pan : Option ℚ := none
  muted : Option Bool := none
  soloed : Option Bool := none
  rec_enabled : Option Bool := none
  marker_name : Option String := none
  position : Option Int := none
  correlation : Option ℚ := none
  phase_issue : Option Bool := none
deriving DecidableEq, Repr

/-- Outcome of a tool method call: its result dictionary, the OSC commands
it passed to send_command (in order), and the cache state it leaves. -/
structure ToolOut where
  result : ToolResult
  sends : List OscCmd
  cache : ArdourState

/-- Error dictionary for a call made while the bridge is disconnected. -/
def notConnectedResult : ToolResult :=
  { success := false, error := some "Not connected to Ardour" }

/-- Error dictionary for a strip id absent from the cache. -/
def trackNotFoundResult (track_id : Int) : ToolResult :=
  { success := false,
    error := some ("Track " ++ toString track_id ++ " not found") }

/-- Error message of the volume range check in set_track_volume. -/
def volumeOutOfRangeError (volume_db : ℚ) : String :=
  "Volume " ++ toString volume_db ++ "dB out of range (-193.0 to +6.0)"

/-- Error message of the pan range check in set_track_pan. -/
def panOutOfRangeError (pan : ℚ) : String :=
  "Pan " ++ toString pan ++ " out of range (-1.0 to +1.0)"

/-- MixerTools.set_track_volume: connection check, then the range check
-193.0 <= volume_db <= 6.0, then track existence, then one
send_command("/strip/gain", track_id, volume_db). -/
def MixerTools.set_track_volume (env : ToolEnv) (track_id : Int)
    (volume_db : ℚ) : ToolOut :=
  if env.bridge.connected = false then
    ⟨notConnectedResult, [], env.cache⟩
  else if ¬(-193 ≤ volume_db ∧ volume_db ≤ 6) then
    ⟨{ success := false, error := some (volumeOutOfRangeError volume_db) },
      [], env.cache⟩
  else
    match env.cache.get_track track_id with
    | none => ⟨trackNotFoundResult track_id, [], env.cache⟩
    | some track =>
      let cmd : OscCmd := ⟨"/strip/gain", [.int track_id, .float volume_db]⟩
      if env.bridge.sendOk then
        ⟨{ success := true,
           message := some ("Set volume for track \x27" ++ track.name ++ "\x27 to "
             ++ toString volume_db ++ "dB"),
           track_id := some track_id,
           track_name := some track.name,
           volume_db := some volume_db }, [cmd], env.cache⟩
      else
        ⟨{ success := false, error := some "Failed to send OSC command" },
          [cmd], env.cache⟩

/-- Pan position description built in set_track_pan (the `:.0f` float
formatting of the source is rendered with rounding to an integer). -/
def panDescription (pan : ℚ) : String :=
  if pan < -1/100 then toString (round (|pan| * 100) : ℤ) ++ "% left"
  else if pan > 1/100 then toString (round (pan * 100) : ℤ) ++ "% right"
  else "center"

/-- MixerTools.set_track_pan: connection check, then the range check
-1.0 <= pan <= 1.0, then track existence, then one
send_command("/strip/pan_stereo_position", track_id, pan). -/
def MixerTools.set_track_pan (env : ToolEnv) (track_id : Int)
    (pan : ℚ) : ToolOut :=
  if env.bridge.connected = false then
    ⟨notConnectedResult, [], env.cache⟩
  else if ¬(-1 ≤ pan ∧ pan ≤ 1) then
    ⟨{ success := false, error := some (panOutOfRangeError pan) },
      [], env.cache⟩
  else
    match env.cache.get_track track_id with
    | none => ⟨trackNotFoundResult track_id, [], env.cache⟩
    | some track =>
      let cmd : OscCmd := ⟨"/strip/pan_stereo_position", [.int track_id, .float pan]⟩
      if env.bridge.sendOk then
        ⟨{ success := true,
           message := some ("Set pan for track \x27" ++ track.name ++ "\x27 to "
             ++ panDescription pan),
           track_id := some track_id,
           track_name := some track.name,
           pan := some pan }, [cmd], env.cache⟩
      else
        ⟨{ success := false, error := some "Failed to send OSC command" },
          [cmd], env.cache⟩

/-- MixerTools.set_track_mute: connection check, track existence, then one
send_command("/strip/mute", track_id, 1 or 0). -/
def MixerTools.set_track_mute (env : ToolEnv) (track_id : Int)
    (muted : Bool) : ToolOut :=
  if env.bridge.connected = false then
    ⟨notConnectedResult, [], env.cache⟩
  else
    match env.cache.get_track track_id with
    | none => ⟨trackNotFoundResult track_id, [], env.cache⟩
    | some track =>
      let mute_value : Int := if muted then 1 else 0
      let cmd : OscCmd := ⟨"/strip/mute", [.int track_id, .int mute_value]⟩
      if env.bridge.sendOk then
        let action := if muted then "Muted" else "Unmuted"
        ⟨{ success := true,
           message := some (action ++ " track \x27" ++ track.name ++ "\x27"),
           track_id := some track_id,
           track_name := some track.name,
           muted := some muted }, [cmd], env.cache⟩
      else
        ⟨{ success := false, error := some "Failed to send OSC command" },
          [cmd], env.cache⟩

/-- MixerTools.toggle_track_mute: connection check, read the cached record,
then delegate to set_track_mute with the negated cached flag. -/
def MixerTools.toggle_track_mute (env : ToolEnv) (track_id : Int) : ToolOut :=
  if env.bridge.connected = false then
    ⟨notConnectedResult, [], env.cache⟩
  else
    match env.cache.get_track track_id with
    | none => ⟨trackNotFoundResult track_id, [], env.cache⟩
    | some track => MixerTools.set_track_mute env track_id (!track.muted)

/-- MixerTools.set_track_solo: connection check, track existence, then one
send_command("/strip/solo", track_id, 1 or 0). -/
def MixerTools.set_track_solo (env : ToolEnv) (track_id : Int)
    (soloed : Bool) : ToolOut :=
  if env.bridge.connected = false then
    ⟨notConnectedResult, [], env.cache⟩
  else
    match env.cache.get_track track_id with
    | none => ⟨trackNotFoundResult track_id, [], env.cache⟩
    | some track =>
      let solo_value : Int := if soloed then 1 else 0
      let cmd : OscCmd := ⟨"/strip/solo", [.int track_id, .int solo_value]⟩
      if env.bridge.sendOk then
        let action := if soloed then "Soloed" else "Unsoloed"
        ⟨{ success := true,
           message := some (action ++ " track \x27" ++ track.name ++ "\x27"),
           track_id := some track_id,
           track_name := some track.name,
           soloed := some soloed }, [cmd], env.cache⟩
      else
        ⟨{ success := false, error := some "Failed to send OSC command" },
          [cmd], env.cache⟩

/-- MixerTools.toggle_track_solo: connection check, read the cached record,
then delegate to set_track_solo with the negated cached flag. -/
def MixerTools.toggle_track_solo (env : ToolEnv) (track_id : Int) : ToolOut :=
  if env.bridge.connected = false then
    ⟨notConnectedResult, [], env.cache⟩
  else
    match env.cache.get_track track_id with
    | none => ⟨trackNotFoundResult track_id, [], env.cache⟩
    | some track => MixerTools.set_track_solo env track_id (!track.soloed)

/-- MixerTools.set_track_rec_enable: connection check, track existence,
then one send_command("/strip/recenable", track_id, 1 or 0). -/
def MixerTools.set_track_rec_enable (env : ToolEnv) (track_id : Int)
    (enabled : Bool) : ToolOut :=
  if env.bridge.connected = false then
    ⟨notConnectedResult, [], env.cache⟩
  else
    match env.cache.get_track track_id with
    | none => ⟨trackNotFoundResult track_id, [], env.cache⟩
    | some track =>
      let rec_value : Int := if enabled then 1 else 0
      let cmd : OscCmd := ⟨"/strip/recenable", [.int track_id, .int rec_value]⟩
      if env.bridge.sendOk then
        let action := if enabled then "Armed" else "Disarmed"
        ⟨{ success := true,
           message := some (action ++ " track \x27" ++ track.name ++ "\x27 for recording"),
           track_id := some track_id,
           track_name := some track.name,
           rec_enabled := some enabled }, [cmd], env.cache⟩
      else
        ⟨{ success := false, error := some "Failed to send OSC command" },
          [cmd], env.cache⟩

/-- MixerTools.toggle_track_rec_enable: connection check, read the cached
record, then delegate to set_track_rec_enable with the negated flag. -/
def MixerTools.toggle_track_rec_enable (env : ToolEnv) (track_id : Int) : ToolOut :=
  if env.bridge.connected = false then
    ⟨notConnectedResult, [], env.cache⟩
  else
    match env.cache.get_track track_id with
    | none => ⟨trackNotFoundResult track_id, [], env.cache⟩
    | some track => MixerTools.set_track_rec_enable env track_id (!track.rec_enabled)

/-- Loop body of NavigationTools.get_marker_position: linear scan of the
cached marker sequence, first pair whose name equals the query wins. -/
def markerScan (name : String) : List (String × Int) → ToolResult
  | [] =>
    { success := false,
      error := some ("Marker \x27" ++ name ++ "\x27 not found in session") }
  | (marker_name, marker_position) :: rest =>
    if marker_name = name then
      { success := true,
        marker_name := some name,
        position := some marker_position,
        message := some ("Marker \x27" ++ name ++ "\x27 is at frame "
          ++ toString marker_position) }
    else markerScan name rest

/-- Python str.strip() with no argument: remove whitespace from both ends
of the string. -/
def pyStrip (s : String) : String :=
  ⟨((s.data.dropWhile Char.isWhitespace).reverse.dropWhile
      Char.isWhitespace).reverse⟩

/-- NavigationTools.get_marker_position: reject an empty or
whitespace-only name (`not name or not name.strip()`), otherwise scan the
markers of the cached session state for the first name match. -/
def NavigationTools.get_marker_position (st : SessionState) (name : String) :
    ToolResult :=
  if name = "" ∨ pyStrip name = "" then
    { success := false, error := some "Marker name cannot be empty" }
  else
    markerScan name st.markers

/-- Environment of the metering tools: the cache plus the meter cache
self._meter_cache, modelled as the correlation entry (if cached) per strip
id; the master bus is stored under key -1. -/
structure MeterEnv where
  cache : ArdourState
  meter_cache : Int → Option ℚ

/-- MeteringTools.get_phase_correlation: track existence, read the cached
correlation with default 1.0, and flag a phase issue exactly when
correlation < -0.5 (strict). -/
def MeteringTools.get_phase_correlation (env : MeterEnv) (track_id : Int) :
    ToolResult :=
  match env.cache.get_track track_id with
  | none => trackNotFoundResult track_id
  | some track =>
    let correlation := (env.meter_cache track_id).getD 1
    { success := true,
      message := some ("Phase correlation for track \x27" ++ track.name ++ "\x27"),
      track_id := some track_id,
      track_name := some track.name,
      correlation := some correlation,
      phase_issue := some (decide (correlation < -(1/2))) }

/-- MeteringTools.get_master_phase_correlation: read the master-bus
correlation (meter-cache key -1) with default 1.0; phase issue exactly
when correlation < -0.5 (strict). -/
def MeteringTools.get_master_phase_correlation (env : MeterEnv) : ToolResult :=
  let correlation := (env.meter_cache (-1)).getD 1
  { success := true,
    message := some "Master bus phase correlation",
    correlation := some correlation,
    phase_issue := some (decide (correlation < -(1/2))) }

/-- An atomic cache operation.  Every mutating accessor of ArdourState
wraps its whole body in `with self._lock`, so in any interleaving of
concurrent callers each accessor executes as one indivisible step; an
interleaved execution is a sequence of these operations. -/
inductive CacheOp where
  | upd_track (strip_id : Int) (kwargs : List TrackKwarg)
  | upd_transport (playing recording : Option Bool) (frame : Option Int)
      (tempo : Option ℚ)
  | clear_all
deriving Repr

/-- Apply one atomic cache operation. -/
def CacheOp.apply (a : ArdourState) : CacheOp → ArdourState
  | .upd_track strip_id kwargs => a.update_track strip_id kwargs
  | .upd_transport p r f t => a.update_transport p r f t
  | .clear_all => a.clear

/-- Run a serialized interleaving of atomic cache operations. -/
def runOps (a : ArdourState) (ops : List CacheOp) : ArdourState :=
  ops.foldl CacheOp.apply a

namespace RefModel

/-!
Object-level model of the tracks dict, for the copy semantics of
ArdourState.get_all_tracks.  A Python dict maps strip ids to references
to TrackState objects living on a heap; `dict(self._state.tracks)` builds
a new dict with the same keys bound to the same object references.
-/

/-- The cache at the object level: a heap of TrackState objects addressed
by reference, and the tracks dict binding strip ids to references. -/
structure TrackDictMem where
  heap : Nat → TrackState
  dict : List (Int × Nat)

/-- ArdourState.get_all_tracks at the object level: `dict(...)` returns a
new dict with the same entries — same keys, same object references. -/
def get_all_tracks_refs (m : TrackDictMem) : List (Int × Nat) :=
  m.dict

/-- Overwrite the TrackState object at one reference (a field assignment
on a record reached through any dict that holds the reference). -/
def heap_write (m : TrackDictMem) (r : Nat) (t : TrackState) : TrackDictMem :=
  { m with heap := fun x => if x = r then t else m.heap x }

/-- ArdourState.get_track at the object level: look the id up in the
own dict of the cache and dereference. -/
def get_track_value (m : TrackDictMem) (strip_id : Int) : Option TrackState :=
  (m.dict.lookup strip_id).map m.heap

end RefModel

/-! Helper lemmas shared by the claim theorems. -/

theorem fieldEq_refl (f : TrackFieldName) (t : TrackState) :
    TrackState.fieldEq f t t := by
  cases f <;> rfl

theorem fieldEq_trans {f : TrackFieldName} {t₁ t₂ t₃ : TrackState}
    (h₁ : TrackState.fieldEq f t₁ t₂) (h₂ : TrackState.fieldEq f t₂ t₃) :
    TrackState.fieldEq f t₁ t₃ := by
  cases f <;> exact h₁.trans h₂

theorem setattr_fieldEq_of_target_ne (f : TrackFieldName) (k : TrackKwarg)
    (hk : k.target ≠ some f) (t : TrackState) :
    TrackState.fieldEq f (t.setattr k) t := by
  cases k <;> cases f <;>
    first
      | exact absurd rfl hk
      | rfl

theorem foldl_setattr_fieldEq (f : TrackFieldName) (kwargs : List TrackKwarg)
    (h : ∀ k ∈ kwargs, k.target ≠ some f) (t : TrackState) :
    TrackState.fieldEq f (kwargs.foldl TrackState.setattr t) t := by
  induction kwargs generalizing t with
  | nil => exact fieldEq_refl f t
  | cons k ks ih =>
    have hk : k.target ≠ some f := h k (List.mem_cons_self k ks)
    have hks : ∀ k₂ ∈ ks, TrackKwarg.target k₂ ≠ some f :=
      fun k₂ hm => h k₂ (List.mem_cons_of_mem k hm)
    exact fieldEq_trans (ih hks (t.setattr k)) (setattr_fieldEq_of_target_ne f k hk t)

/-- C3: for every reachable cache state, clear() replaces the protected
session state with a freshly constructed SessionState whose fields all
carry the source defaults (empty tracks mapping, empty marker list,
default transport with playing and recording false, frame 0, tempo 120,
time signature (4, 4), loop disabled, name and path empty, sample rate
48000, dirty false), while the lock object of the cache is the identical
object before and after the call. -/
theorem claim_C3_clear_resets_state_and_preserves_lock :
    ∀ a : ArdourState,
      (a.clear).lock = a.lock
      ∧ (a.clear).state = ({} : SessionState)
      ∧ ({} : SessionState).tracks = (fun _ => none)
      ∧ ({} : SessionState).markers = []
      ∧ ({} : SessionState).transport =
          { playing := false, recording := false, frame := 0, tempo := 120,
            time_signature := (4, 4), loop_enabled := false }
      ∧ ({} : SessionState).name = ""
      ∧ ({} : SessionState).path = ""
      ∧ ({} : SessionState).sample_rate = 48000
      ∧ ({} : SessionState).dirty = false := by
  intro a
  exact ⟨rfl, rfl, rfl, rfl, rfl, rfl, rfl, rfl, rfl⟩

/-- C9: for every cached correlation value c of an existing track (and of
the master bus, meter-cache key -1), the phase_issue flag of
get_phase_correlation and get_master_phase_correlation is true exactly
when c < -1/2, under the strict comparison: c = -1/2 is classified as no
issue while c = -50001/100000 is classified as an issue. -/
theorem claim_C9_phase_issue_strict_boundary :
    (∀ (env : MeterEnv) (track_id : Int) (t : TrackState) (c : ℚ),
        env.cache.get_track track_id = some t →
        env.meter_cache track_id = some c →
          (MeteringTools.get_phase_correlation env track_id).correlation = some c
          ∧ (MeteringTools.get_phase_correlation env track_id).phase_issue
              = some (decide (c < -(1/2))))
    ∧ (∀ (env : MeterEnv) (c : ℚ),
        env.meter_cache (-1) = some c →
          (MeteringTools.get_master_phase_correlation env).correlation = some c
          ∧ (MeteringTools.get_master_phase_correlation env).phase_issue
              = some (decide (c < -(1/2))))
    ∧ ¬((-(1/2) : ℚ) < -(1/2))
    ∧ ((-(50001/100000) : ℚ) < -(1/2)) := by
  refine ⟨?_, ?_, by norm_num, by norm_num⟩
  · intro env track_id t c h₁ h₂
    simp [MeteringTools.get_phase_correlation, h₁, h₂]
  · intro env c h
    simp [MeteringTools.get_master_phase_correlation, h]

/-- Witness for C9: concrete meter caches at the boundary, correlation
exactly -1/2 flagged as no issue and -50001/100000 flagged as an issue. -/
theorem claim_C9_witness :
    (MeteringTools.get_phase_correlation
        ⟨⟨0, { tracks := fun i => if i = 1 then some { strip_id := 1 } else none }⟩,
          fun i => if i = 1 then some (-(1/2)) else none⟩ 1).phase_issue
      = some false
    ∧ (MeteringTools.get_phase_correlation
        ⟨⟨0, { tracks := fun i => if i = 1 then some { strip_id := 1 } else none }⟩,
          fun i => if i = 1 then some (-(50001/100000)) else none⟩ 1).phase_issue
      = some true := by
  constructor
  · have h := claim_C9_phase_issue_strict_boundary.1
      ⟨⟨0, { tracks := fun i => if i = 1 then some { strip_id := 1 } else none }⟩,
        fun i => if i = 1 then some (-(1/2)) else none⟩
      1 { strip_id := 1 } (-(1/2)) rfl rfl
    have hb : ¬((-(1/2) : ℚ) < -(1/2)) := by norm_num
    exact h.2.trans (by rw [decide_eq_false hb])
  · have h := claim_C9_phase_issue_strict_boundary.1
      ⟨⟨0, { tracks := fun i => if i = 1 then some { strip_id := 1 } else none }⟩,
        fun i => if i = 1 then some (-(50001/100000)) else none⟩
      1 { strip_id := 1 } (-(50001/100000)) rfl rfl
    have hb : ((-(50001/100000) : ℚ) < -(1/2)) := by norm_num
    exact h.2.trans (by rw [decide_eq_true hb])

/-- C2: set_track_mute leaves the session state cache untouched for every
strip id and flag; only feedback applied through ArdourState.update_track
changes the cached muted flag: after update_track(id, muted := true) the
cached record reports muted = true, and after a subsequent
update_track(id, muted := false) it reports muted = false again. -/
theorem claim_C2_feedback_is_sole_source_of_truth :
    (∀ (env : ToolEnv) (track_id : Int) (b : Bool),
        (MixerTools.set_track_mute env track_id b).cache = env.cache)
    ∧ (∀ (a : ArdourState) (strip_id : Int),
        ((a.update_track strip_id [TrackKwarg.muted true]).get_track
            strip_id).map (fun t => t.muted) = some true
        ∧ (((a.update_track strip_id [TrackKwarg.muted true]).update_track
              strip_id [TrackKwarg.muted false]).get_track
            strip_id).map (fun t => t.muted) = some false) := by
  constructor
  · intro env track_id b
    unfold MixerTools.set_track_mute
    split
    · rfl
    · split
      · rfl
      · cases hs : env.bridge.sendOk <;> simp [hs]
  · intro a strip_id
    constructor
    · simp [ArdourState.update_track, ArdourState.get_track, TrackState.setattr]
    · simp [ArdourState.update_track, ArdourState.get_track, TrackState.setattr]

/-- C4: update_track creates a track record with the source defaults when
the strip id is absent, applies the keyword arguments to that record, and
changes nothing else: attributes no keyword argument targets are
unchanged, every other track is unchanged, the markers, transport and
session-level fields are unchanged, the lock is unchanged, and no track
record is ever removed. -/
theorem claim_C4_update_track_frame_conditions :
    ∀ (a : ArdourState) (strip_id : Int) (kwargs : List TrackKwarg),
      (a.update_track strip_id kwargs).get_track strip_id
        = some (kwargs.foldl TrackState.setattr
            ((a.get_track strip_id).getD { strip_id := strip_id }))
      ∧ (a.get_track strip_id = none →
          (a.update_track strip_id []).get_track strip_id
            = some { strip_id := strip_id, name := "", track_type := "audio",
                     muted := false, soloed := false, rec_enabled := false,
                     gain_db := 0, pan := 0, hidden := false })
      ∧ (∀ f : TrackFieldName, (∀ k ∈ kwargs, k.target ≠ some f) →
          ∀ t₀ : TrackState,
            TrackState.fieldEq f (kwargs.foldl TrackState.setattr t₀) t₀)
      ∧ (∀ i, i ≠ strip_id →
          (a.update_track strip_id kwargs).get_track i = a.get_track i)
      ∧ (a.update_track strip_id kwargs).state.markers = a.state.markers
      ∧ (a.update_track strip_id kwargs).state.transport = a.state.transport
      ∧ (a.update_track strip_id kwargs).state.name = a.state.name
      ∧ (a.update_track strip_id kwargs).state.path = a.state.path
      ∧ (a.update_track strip_id kwargs).state.sample_rate = a.state.sample_rate
      ∧ (a.update_track strip_id kwargs).state.dirty = a.state.dirty
      ∧ (a.update_track strip_id kwargs).lock = a.lock
      ∧ (∀ i, a.get_track i ≠ none →
          (a.update_track strip_id kwargs).get_track i ≠ none) := by
  intro a strip_id kwargs
  refine ⟨?_, ?_, ?_, ?_, rfl, rfl, rfl, rfl, rfl, rfl, rfl, ?_⟩
  · simp [ArdourState.update_track, ArdourState.get_track]
  · intro h
    have h₂ : a.state.tracks strip_id = none := h
    simp [ArdourState.update_track, ArdourState.get_track, h₂]
  · intro f hf t₀
    exact foldl_setattr_fieldEq f kwargs hf t₀
  · intro i hi
    simp [ArdourState.update_track, ArdourState.get_track, hi]
  · intro i hi
    by_cases h : i = strip_id
    · subst h
      simp [ArdourState.update_track, ArdourState.get_track]
    · simpa [ArdourState.update_track, ArdourState.get_track, h] using hi

/-- Witness for C4 at concrete inputs: an empty cache, strip id 1 and the
single keyword argument gain_db := -6. -/
theorem claim_C4_witness :
    (ArdourState.get_track (ArdourState.update_track ⟨0, {}⟩ 1 []) 1
      = some { strip_id := 1, name := "", track_type := "audio",
               muted := false, soloed := false, rec_enabled := false,
               gain_db := 0, pan := 0, hidden := false })
    ∧ (ArdourState.get_track
        (ArdourState.update_track ⟨0, {}⟩ 1 [TrackKwarg.gain_db (-6)]) 2
      = ArdourState.get_track ⟨0, {}⟩ 2)
    ∧ TrackState.fieldEq TrackFieldName.muted
        ([TrackKwarg.gain_db (-6)].foldl TrackState.setattr { strip_id := 1 })
        { strip_id := 1 } := by
  have h := claim_C4_update_track_frame_conditions ⟨0, {}⟩ 1 [TrackKwarg.gain_db (-6)]
  have h0 := claim_C4_update_track_frame_conditions ⟨0, {}⟩ 1 []
  refine ⟨h0.2.1 rfl, h.2.2.2.1 2 (by decide), ?_⟩
  exact h.2.2.1 TrackFieldName.muted (by intro k hk; fin_cases hk; simp [TrackKwarg.target])
    { strip_id := 1 }

/-- C10: for every strip id, keyword arguments whose name is not an
attribute of TrackState are silently ignored by update_track: the update
is the same as with those arguments removed (no exception is raised; in
the embedding update_track is a total function), while the record is
still created with defaults on first reference. -/
theorem claim_C10_unknown_kwargs_ignored :
    ∀ (a : ArdourState) (strip_id : Int) (kwargs : List TrackKwarg),
      a.update_track strip_id kwargs
        = a.update_track strip_id (kwargs.filter (fun k => k.target.isSome))
      ∧ (∀ key, (TrackKwarg.unknown key).target = none)
      ∧ (∀ key, (a.update_track strip_id [TrackKwarg.unknown key]).get_track
          strip_id = some ((a.get_track strip_id).getD { strip_id := strip_id })) := by
  have hfold : ∀ (kwargs : List TrackKwarg) (t : TrackState),
      (kwargs.filter (fun k => k.target.isSome)).foldl TrackState.setattr t
        = kwargs.foldl TrackState.setattr t := by
    intro kwargs
    induction kwargs with
    | nil => intro t; rfl
    | cons k ks ih =>
      intro t
      cases k <;> simp [List.filter_cons, TrackKwarg.target, TrackState.setattr]
        <;> exact ih _
  intro a strip_id kwargs
  refine ⟨?_, fun _ => rfl, ?_⟩
  · unfold ArdourState.update_track
    simp only [hfold]
  · intro key
    simp [ArdourState.update_track, ArdourState.get_track, TrackState.setattr]

/-- C1: for every track id, a volume outside [-193, 6] given to
set_track_volume and a pan outside [-1, 1] given to set_track_pan yield a
failure result, send_command receives nothing, and the state cache is
unchanged; when the bridge is connected the failure carries the
out-of-range validation error. -/
theorem claim_C1_invalid_input_zero_side_effects :
    ∀ (env : ToolEnv) (track_id : Int) (v p : ℚ),
      ((v < -193 ∨ 6 < v) →
          (MixerTools.set_track_volume env track_id v).result.success = false
          ∧ (MixerTools.set_track_volume env track_id v).sends = []
          ∧ (MixerTools.set_track_volume env track_id v).cache = env.cache
          ∧ (env.bridge.connected = true →
              (MixerTools.set_track_volume env track_id v).result.error
                = some (volumeOutOfRangeError v)))
      ∧ ((p < -1 ∨ 1 < p) →
          (MixerTools.set_track_pan env track_id p).result.success = false
          ∧ (MixerTools.set_track_pan env track_id p).sends = []
          ∧ (MixerTools.set_track_pan env track_id p).cache = env.cache
          ∧ (env.bridge.connected = true →
              (MixerTools.set_track_pan env track_id p).result.error
                = some (panOutOfRangeError p))) := by
  intro env track_id v p
  constructor
  · intro hv
    have hcond : ¬(-193 ≤ v ∧ v ≤ 6) := by
      rcases hv with h | h <;> rintro ⟨h₁, h₂⟩ <;> linarith
    unfold MixerTools.set_track_volume
    by_cases hc : env.bridge.connected = false
    · simp [hc, notConnectedResult]
    · simp [hc, hcond]
  · intro hp
    have hcond : ¬(-1 ≤ p ∧ p ≤ 1) := by
      rcases hp with h | h <;> rintro ⟨h₁, h₂⟩ <;> linarith
    unfold MixerTools.set_track_pan
    by_cases hc : env.bridge.connected = false
    · simp [hc, notConnectedResult]
    · simp [hc, hcond]

/-- Witness for C1: a connected bridge, volume 7 dB and pan 2 rejected with
no datagram sent and the out-of-range errors reported. -/
theorem claim_C1_witness :
    (MixerTools.set_track_volume ⟨⟨true, true⟩, ⟨0, {}⟩⟩ 1 7).sends = []
    ∧ (MixerTools.set_track_volume ⟨⟨true, true⟩, ⟨0, {}⟩⟩ 1 7).result.success = false
    ∧ (MixerTools.set_track_volume ⟨⟨true, true⟩, ⟨0, {}⟩⟩ 1 7).result.error
        = some (volumeOutOfRangeError 7)
    ∧ (MixerTools.set_track_pan ⟨⟨true, true⟩, ⟨0, {}⟩⟩ 1 2).sends = []
    ∧ (MixerTools.set_track_pan ⟨⟨true, true⟩, ⟨0, {}⟩⟩ 1 2).result.success = false
    ∧ (MixerTools.set_track_pan ⟨⟨true, true⟩, ⟨0, {}⟩⟩ 1 2).result.error
        = some (panOutOfRangeError 2) := by
  have h := claim_C1_invalid_input_zero_side_effects ⟨⟨true, true⟩, ⟨0, {}⟩⟩ 1 7 2
  have hv := h.1 (Or.inr (by norm_num))
  have hp := h.2 (Or.inr (by norm_num))
  exact ⟨hv.2.1, hv.1, hv.2.2.2 rfl, hp.2.1, hp.1, hp.2.2.2 rfl⟩

/-- C6: for every existing track, the toggle operations are exactly
read-then-invert-then-set: toggle_track_mute equals set_track_mute called
with the negation of the cached muted flag (same result dictionary, same
sends, same cache), and likewise for solo and rec-enable; and on first
creation of a track record the three booleans are all false. -/
theorem claim_C6_toggle_is_read_invert_set :
    (∀ (env : ToolEnv) (track_id : Int) (t : TrackState),
        env.cache.get_track track_id = some t →
          MixerTools.toggle_track_mute env track_id
            = MixerTools.set_track_mute env track_id (!t.muted)
          ∧ MixerTools.toggle_track_solo env track_id
            = MixerTools.set_track_solo env track_id (!t.soloed)
          ∧ MixerTools.toggle_track_rec_enable env track_id
            = MixerTools.set_track_rec_enable env track_id (!t.rec_enabled))
    ∧ (∀ (a : ArdourState) (strip_id : Int),
        a.get_track strip_id = none →
          ((a.update_track strip_id []).get_track strip_id).map
              (fun t => (t.muted, t.soloed, t.rec_enabled))
            = some (false, false, false)) := by
  constructor
  · intro env track_id t h
    refine ⟨?_, ?_, ?_⟩
    · unfold MixerTools.toggle_track_mute
      split
      · rename_i hc
        unfold MixerTools.set_track_mute
        rw [if_pos hc]
      · rw [h]
    · unfold MixerTools.toggle_track_solo
      split
      · rename_i hc
        unfold MixerTools.set_track_solo
        rw [if_pos hc]
      · rw [h]
    · unfold MixerTools.toggle_track_rec_enable
      split
      · rename_i hc
        unfold MixerTools.set_track_rec_enable
        rw [if_pos hc]
      · rw [h]
  · intro a strip_id h
    have h₂ : a.state.tracks strip_id = none := h
    simp [ArdourState.update_track, ArdourState.get_track, h₂]

/-- Witness for C6: a connected bridge with one unmuted track; toggling
mute equals setting mute to true, and a record created by update_track on
an empty cache has all three booleans false. -/
theorem claim_C6_witness :
    MixerTools.toggle_track_mute
        ⟨⟨true, true⟩,
          ⟨0, { tracks := fun i => if i = 1 then some { strip_id := 1 } else none }⟩⟩ 1
      = MixerTools.set_track_mute
          ⟨⟨true, true⟩,
            ⟨0, { tracks := fun i => if i = 1 then some { strip_id := 1 } else none }⟩⟩ 1 true
    ∧ ((ArdourState.update_track ⟨0, {}⟩ 5 []).get_track 5).map
        (fun t => (t.muted, t.soloed, t.rec_enabled)) = some (false, false, false) := by
  constructor
  · have h := claim_C6_toggle_is_read_invert_set.1
      ⟨⟨true, true⟩,
        ⟨0, { tracks := fun i => if i = 1 then some { strip_id := 1 } else none }⟩⟩
      1 { strip_id := 1 } rfl
    exact h.1
  · exact claim_C6_toggle_is_read_invert_set.2 ⟨0, {}⟩ 5 rfl

/-- Counterexample to C7 as stated: the name " " is non-empty and the
cached sequence holds a marker named " " at frame 5, yet
get_marker_position " " does not return that frame — the guard
`not name or not name.strip()` rejects every whitespace-only name before
the scan. -/
theorem claim_C7_counterexample :
    (" " : String) ≠ ""
    ∧ ({ markers := [(" ", 5)] } : SessionState).markers
        = [((" " : String), (5 : Int))]
    ∧ (NavigationTools.get_marker_position { markers := [(" ", 5)] } " ").success
        = false
    ∧ (NavigationTools.get_marker_position { markers := [(" ", 5)] } " ").position
        = none
    ∧ (NavigationTools.get_marker_position { markers := [(" ", 5)] } " ").error
        = some "Marker name cannot be empty" := by
  exact ⟨by decide, rfl, by decide, by decide, by decide⟩

/-- C7 amended: for every marker name that is still non-empty after
stripping whitespace, get_marker_position returns the frame of the first
pair in the cached markers sequence whose name equals it, and a
structured not-found failure when no pair matches (first-match semantics
under a linear scan, names not required unique). -/
theorem claim_C7_amended_first_match_semantics :
    ∀ (st : SessionState) (name : String), pyStrip name ≠ "" →
      NavigationTools.get_marker_position st name
        = match st.markers.find? (fun q => q.1 == name) with
          | some q =>
            { success := true, marker_name := some name, position := some q.2,
              message := some ("Marker \x27" ++ name ++ "\x27 is at frame "
                ++ toString q.2) }
          | none =>
            { success := false,
              error := some ("Marker \x27" ++ name ++ "\x27 not found in session") } := by
  intro st name h
  have hguard : ¬(name = "" ∨ pyStrip name = "") := by
    rintro (h₁ | h₁)
    · subst h₁
      exact h (by decide)
    · exact h h₁
  unfold NavigationTools.get_marker_position
  rw [if_neg hguard]
  generalize st.markers = l
  induction l with
  | nil => rfl
  | cons q rest ih =>
    obtain ⟨mn, mp⟩ := q
    by_cases hmn : mn = name
    · simp [markerScan, List.find?_cons, hmn]
    · simp only [markerScan, List.find?_cons]
      rw [if_neg hmn]
      have hbeq : (mn == name) = false := by
        simpa using hmn
      rw [hbeq]
      exact ih

/-- Witness for C7: the marker Verse at frame 96000 is removed from the
sequence and a new Verse appended at frame 120000; get_marker_position
then reports frame 120000. -/
theorem claim_C7_witness :
    NavigationTools.get_marker_position
        { markers := (List.eraseP (fun q => q.1 == "Verse")
            [(("Verse" : String), (96000 : Int))]) ++ [("Verse", 120000)] }
        "Verse"
      = { success := true, marker_name := some "Verse",
          position := some 120000,
          message := some "Marker \x27Verse\x27 is at frame 120000" } := by
  have h := claim_C7_amended_first_match_semantics
    { markers := (List.eraseP (fun q => q.1 == "Verse")
        [(("Verse" : String), (96000 : Int))]) ++ [("Verse", 120000)] }
    "Verse" (by decide)
  exact h.trans (by decide)

/-- Counterexample to C5 as stated: get_all_tracks performs `dict(...)`, a
shallow copy, so the returned mapping exposes the very references the
cache holds.  With one track at reference 0, mutating the record reached
through the returned copy (setting muted) changes what get_track reports
— the cache is not left unchanged by every mutation of the copy. -/
theorem claim_C5_counterexample :
    (RefModel.get_all_tracks_refs
        ⟨fun _ => { strip_id := 1 }, [(1, 0)]⟩).lookup 1 = some 0
    ∧ RefModel.get_track_value
        (RefModel.heap_write ⟨fun _ => { strip_id := 1 }, [(1, 0)]⟩ 0
          { strip_id := 1, muted := true }) 1
        ≠ RefModel.get_track_value ⟨fun _ => { strip_id := 1 }, [(1, 0)]⟩ 1 := by
  constructor
  · rfl
  · intro h
    simp [RefModel.get_track_value, RefModel.heap_write, List.lookup] at h

/-- C5 amended: get_all_tracks returns a new dict whose entries equal the
track mapping of the cache entry for entry (same strip ids bound to the
same TrackState references, so adding or removing entries of the returned
copy cannot affect the cache), but the TrackState records themselves are
shared, not copied: writing a record through a reference exposed by the
returned copy is visible to a subsequent get_track on the cache. -/
theorem claim_C5_amended_shallow_copy :
    ∀ (m : RefModel.TrackDictMem),
      RefModel.get_all_tracks_refs m = m.dict
      ∧ (∀ (strip_id : Int) (r : Nat),
          (RefModel.get_all_tracks_refs m).lookup strip_id = some r →
          ∀ t : TrackState,
            RefModel.get_track_value (RefModel.heap_write m r t) strip_id
              = some t) := by
  intro m
  refine ⟨rfl, ?_⟩
  intro strip_id r h t
  have hd : m.dict.lookup strip_id = some r := h
  simp [RefModel.get_track_value, RefModel.heap_write, hd]

/-- Witness for C5 amended: through the reference exposed by the copy,
the write is visible to get_track on the cache. -/
theorem claim_C5_witness :
    RefModel.get_track_value
        (RefModel.heap_write ⟨fun _ => { strip_id := 1 }, [(1, 0)]⟩ 0
          { strip_id := 1, muted := true }) 1
      = some { strip_id := 1, muted := true } := by
  exact (claim_C5_amended_shallow_copy
    ⟨fun _ => { strip_id := 1 }, [(1, 0)]⟩).2 1 0 rfl
    { strip_id := 1, muted := true }

/-- C8: every cache accessor runs its whole critical section under the one
reentrant lock, so an interleaving of update_track(1, gain_db := -6) and
update_track(2, pan := 3/10) from two concurrent callers is one of the
two serializations; both produce the same final state, in which track 1
carries its full record with gain_db set and track 2 its full record with
pan set — neither record is mixed or missing a field — and no operation
replaces the lock object. -/
theorem update_track_commute (a : ArdourState) (sid₁ sid₂ : Int)
    (k₁ k₂ : List TrackKwarg) (h : sid₁ ≠ sid₂) :
    (a.update_track sid₁ k₁).update_track sid₂ k₂
      = (a.update_track sid₂ k₂).update_track sid₁ k₁ := by
  simp only [ArdourState.update_track]
  refine ArdourState.ext rfl ?_
  refine SessionState.ext rfl rfl rfl ?_ rfl rfl rfl
  funext i
  by_cases h₁ : i = sid₁ <;> by_cases h₂ : i = sid₂ <;>
    simp [h₁, h₂, h, Ne.symm h]

theorem claim_C8_interleaved_updates_atomic :
    ∀ a : ArdourState,
      runOps a [CacheOp.upd_track 1 [TrackKwarg.gain_db (-6)],
                CacheOp.upd_track 2 [TrackKwarg.pan (3/10)]]
        = runOps a [CacheOp.upd_track 2 [TrackKwarg.pan (3/10)],
                    CacheOp.upd_track 1 [TrackKwarg.gain_db (-6)]]
      ∧ (runOps a [CacheOp.upd_track 1 [TrackKwarg.gain_db (-6)],
                   CacheOp.upd_track 2 [TrackKwarg.pan (3/10)]]).get_track 1
          = some { ((a.get_track 1).getD { strip_id := 1 }) with gain_db := -6 }
      ∧ (runOps a [CacheOp.upd_track 1 [TrackKwarg.gain_db (-6)],
                   CacheOp.upd_track 2 [TrackKwarg.pan (3/10)]]).get_track 2
          = some { ((a.get_track 2).getD { strip_id := 2 }) with pan := 3/10 }
      ∧ (∀ op : CacheOp, (CacheOp.apply a op).lock = a.lock) := by
  intro a
  refine ⟨?_, ?_, ?_, ?_⟩
  · show (a.update_track 1 _).update_track 2 _
      = (a.update_track 2 _).update_track 1 _
    exact update_track_commute a 1 2 _ _ (by decide)
  · simp [runOps, CacheOp.apply, ArdourState.update_track, ArdourState.get_track,
      TrackState.setattr]
  · simp [runOps, CacheOp.apply, ArdourState.update_track, ArdourState.get_track,
      TrackState.setattr]
  · intro op
    cases op <;> rfl

end ArdourMcp
